import Mathlib

/-!
Verification development for the FAPI order service.

The embedding models JavaScript numbers as exact rationals, with an explicit
marker type for the non-finite values (NaN, +Infinity, -Infinity) where the
source tests `Number.isFinite`.  `Math.round` is modelled as `fun q => ⌊q + 1/2⌋`
(round half toward positive infinity), which is its behaviour on the reals.
-/

namespace FapiOrder

/-- A JavaScript number as seen by the VAT utilities: either a finite value
(modelled exactly as a rational) or one of the non-finite values. -/
inductive JsNum where
  | fin (q : ℚ)
  | nan
  | posInf
  | negInf
deriving DecidableEq

/-- `Number.isFinite`. -/
def JsNum.isFinite : JsNum → Bool
  | .fin _ => true
  | _ => false

/-- Computable floor of a rational (equal to `Int.floor`, see `ratFloor_eq`). -/
def ratFloor (q : ℚ) : ℤ := q.num / (q.den : ℤ)

theorem ratFloor_eq (q : ℚ) : ratFloor q = ⌊q⌋ := by
  rw [Rat.floor_def]; rfl

/-- `Math.round`: round half toward positive infinity. -/
def roundJs (q : ℚ) : ℤ := ratFloor (q + 1/2)

theorem roundJs_eq (q : ℚ) : roundJs q = ⌊q + 1/2⌋ := ratFloor_eq _

/-- `roundToTwoDecimals` from `packages/shared/src/utils/vat.ts`:
`Math.round(value * 100) / 100`. -/
def roundToTwoDecimals (value : ℚ) : ℚ := ((roundJs (value * 100) : ℤ) : ℚ) / 100

/-- `sanitizeQuantity` from `vat.ts`: non-finite or negative quantities become 0,
otherwise `Math.max(0, Math.round(quantity))`. -/
def sanitizeQuantity : JsNum → ℚ
  | .fin q => if q < 0 then 0 else max 0 ((roundJs q : ℤ) : ℚ)
  | _ => 0

/-- `sanitizePrice` from `vat.ts`: non-finite or negative prices become 0,
otherwise `Math.max(0, price)`. -/
def sanitizePrice : JsNum → ℚ
  | .fin q => if q < 0 then 0 else max 0 q
  | _ => 0

/-- `DEFAULT_VAT_RATE` from `packages/shared/src/constants.ts` (21 %). -/
def DEFAULT_VAT_RATE : ℚ := 21/100

/-- Input of `calculateVatBreakdown` (`VatCalculationInput`); `vatRate` is
optional in the source (`input.vatRate ?? DEFAULT_VAT_RATE`). -/
structure VatCalculationInput where
  unitPriceCzk : JsNum
  quantity : JsNum
  vatRate : Option ℚ := none
deriving DecidableEq

/-- `VatBreakdown` value type. -/
structure VatBreakdown where
  subtotalCzk : ℚ
  vatAmountCzk : ℚ
  totalCzk : ℚ
  vatRate : ℚ
deriving DecidableEq

/-- `calculateVatBreakdown` from `vat.ts`: sanitize, then
`subtotal = round2(unitPrice * quantity)`, `vatAmount = round2(subtotal * vatRate)`,
`total = round2(subtotal + vatAmount)`.  The function is total: it never throws. -/
def calculateVatBreakdown (input : VatCalculationInput) : VatBreakdown :=
  let unitPrice := sanitizePrice input.unitPriceCzk
  let quantity := sanitizeQuantity input.quantity
  let vatRate := input.vatRate.getD DEFAULT_VAT_RATE
  let subtotalCzk := roundToTwoDecimals (unitPrice * quantity)
  let vatAmountCzk := roundToTwoDecimals (subtotalCzk * vatRate)
  let totalCzk := roundToTwoDecimals (subtotalCzk + vatAmountCzk)
  { subtotalCzk := subtotalCzk
    vatAmountCzk := vatAmountCzk
    totalCzk := totalCzk
    vatRate := vatRate }

/-- `calculatePriceBeforeVat` from `vat.ts`:
`round2(sanitizePrice(priceWithVat) / (1 + vatRate))`. -/
def calculatePriceBeforeVat (priceWithVat : JsNum) (vatRate : ℚ := DEFAULT_VAT_RATE) : ℚ :=
  roundToTwoDecimals (sanitizePrice priceWithVat / (1 + vatRate))

-- ===========================================================================
-- CNB exchange-rates service (apps/api/src/services/cnbRates.service.ts)
-- ===========================================================================

/-- `SUPPORTED_CURRENCIES = ['EUR', 'USD', 'PLN']`. -/
inductive SupportedCurrency where
  | EUR
  | USD
  | PLN
deriving DecidableEq

/-- The string code of a supported currency. -/
def SupportedCurrency.codeStr : SupportedCurrency → String
  | .EUR => "EUR"
  | .USD => "USD"
  | .PLN => "PLN"

def SUPPORTED_CURRENCIES : List SupportedCurrency := [.EUR, .USD, .PLN]

/-- `CnbRates`: currency code → CZK per 1 foreign unit, `null` when absent. -/
structure CnbRates where
  EUR : Option ℚ
  USD : Option ℚ
  PLN : Option ℚ
deriving DecidableEq

/-- Look a supported currency up in a rate table (`rates[code]`). -/
def CnbRates.rateOf (r : CnbRates) : SupportedCurrency → Option ℚ
  | .EUR => r.EUR
  | .USD => r.USD
  | .PLN => r.PLN

/-- `rates[code] = v` for a currency-code string; codes outside the supported
set leave the table unchanged (the source only assigns after the
`SUPPORTED_CURRENCIES.includes(code)` guard). -/
def CnbRates.setRate (r : CnbRates) (code : String) (v : ℚ) : CnbRates :=
  if code = "EUR" then { r with EUR := some v }
  else if code = "USD" then { r with USD := some v }
  else if code = "PLN" then { r with PLN := some v }
  else r

/-- Split a character list on a separator character; the result is never
empty and contains one (possibly empty) chunk per separator-delimited
segment, matching JS `String.prototype.split` with a one-character
separator. -/
def splitOnChar (sep : Char) : List Char → List (List Char)
  | [] => [[]]
  | c :: rest =>
    if c = sep then [] :: splitOnChar sep rest
    else
      match splitOnChar sep rest with
      | chunk :: chunks => (c :: chunk) :: chunks
      | [] => [[c]]

/-- JS `s.split(sep)` for a one-character separator. -/
def jsSplit (s : String) (sep : Char) : List String :=
  (splitOnChar sep s.toList).map String.mk

/-- JS `s.trim()`: strip leading and trailing whitespace (modelled with
`Char.isWhitespace`; the exotic Unicode space characters JS additionally
strips never occur in the CNB payload). -/
def jsTrim (s : String) : String :=
  String.mk (((s.toList.dropWhile Char.isWhitespace).reverse.dropWhile
    Char.isWhitespace).reverse)

/-- Read a decimal-digit prefix: accumulated value, number of digits read,
remaining characters. -/
def takeDigitsAux : ℕ → ℕ → List Char → ℕ × ℕ × List Char
  | acc, cnt, [] => (acc, cnt, [])
  | acc, cnt, c :: cs =>
    if c.isDigit then takeDigitsAux (10 * acc + (c.toNat - 48)) (cnt + 1) cs
    else (acc, cnt, c :: cs)

/-- Strip one optional leading sign; returns (negative?, rest). -/
def splitSign : List Char → Bool × List Char
  | [] => (false, [])
  | c :: cs =>
    if c = '-' then (true, cs)
    else if c = '+' then (false, cs)
    else (false, c :: cs)

/-- Model of JS `parseInt(s, 10)`: optional sign followed by a non-empty
decimal-digit prefix; `none` models `NaN`.  Leading whitespace is not
modelled (the only call site trims first). -/
def parseIntJs (s : String) : Option ℤ :=
  let (neg, cs) := splitSign s.toList
  let (v, cnt, _) := takeDigitsAux 0 0 cs
  if cnt = 0 then none
  else some (if neg then -(v : ℤ) else (v : ℤ))

/-- Model of JS `parseFloat`: optional sign, decimal-digit prefix, optional
fractional part; `none` models `NaN`.  Exponent suffixes are not modelled
(the CNB payload format never contains them) and leading whitespace is not
modelled (the only call site trims first). -/
def parseFloatJs (s : String) : Option ℚ :=
  let (neg, cs) := splitSign s.toList
  let (ip, icnt, rest) := takeDigitsAux 0 0 cs
  match rest with
  | '.' :: cs2 =>
    let (fp, fcnt, _) := takeDigitsAux 0 0 cs2
    if icnt = 0 ∧ fcnt = 0 then none
    else
      let v : ℚ := (ip : ℚ) + (fp : ℚ) / ((10 : ℚ) ^ fcnt)
      some (if neg then -v else v)
  | _ =>
    if icnt = 0 then none
    else some (if neg then -(ip : ℚ) else (ip : ℚ))

/-- JS `s.replace(from, to)` with one-character string arguments replaces only
the first occurrence. -/
def replaceFirstChar : List Char → Char → Char → List Char
  | [], _, _ => []
  | c :: cs, a, b => if c = a then b :: cs else c :: replaceFirstChar cs a b

/-- `rateStr.replace(',', '.')`. -/
def jsReplaceCommaDot (s : String) : String :=
  String.mk (replaceFirstChar s.toList ',' '.')

/-- One iteration of the line loop in `parseRatesText`.  The source binds
`parts`, `code`, `amountStr` and `rateStr` as locals; they are inlined
here.  The currency-code guard is the
`SUPPORTED_CURRENCIES.includes(code)` membership test. -/
def processLine (rates : CnbRates) (line : String) : CnbRates :=
  if line = "" then rates
  else if (jsSplit line '|').length < 5 then rates
  else if ¬ (jsTrim ((jsSplit line '|').getD 3 "") = "EUR"
      ∨ jsTrim ((jsSplit line '|').getD 3 "") = "USD"
      ∨ jsTrim ((jsSplit line '|').getD 3 "") = "PLN") then rates
  else
    match parseIntJs (jsTrim ((jsSplit line '|').getD 2 "")),
        parseFloatJs (jsReplaceCommaDot (jsTrim ((jsSplit line '|').getD 4 ""))) with
    | some amount, some rate =>
      if amount = 0 then rates
      else rates.setRate (jsTrim ((jsSplit line '|').getD 3 "")) (rate / (amount : ℚ))
    | some _, none => rates
    | none, _ => rates

/-- `parseRatesText` from `cnbRates.service.ts`: trim, split on newlines,
skip the first two lines, process the rest in order starting from the empty
table. -/
def parseRatesText (text : String) : CnbRates :=
  ((jsSplit (jsTrim text) '\n').drop 2).foldl processLine ⟨none, none, none⟩

/-- Outcome of the single `fetch(CNB_API_URL, ...)` call inside
`fetchCnbRates`: either a response with an HTTP status and a body text, or a
thrown error (network failure, or the abort fired by the 10-second timeout)
carrying its message. -/
inductive NetworkOutcome where
  | response (status : ℕ) (body : String)
  | thrown (message : String)
deriving DecidableEq

/-- `FetchRatesResult` (the `fetchedAt` timestamp is omitted; no claim
depends on it). -/
structure FetchRatesResult where
  success : Bool
  rates : Option CnbRates
  error : Option String
deriving DecidableEq

/-- `response.ok`: HTTP status in the 2xx range. -/
def statusOk (status : ℕ) : Bool := decide (200 ≤ status ∧ status ≤ 299)

/-- `fetchCnbRates` from `cnbRates.service.ts`, as a function of the network
outcome.  Totality of this function is the model of the surrounding
try/catch: every failure mode yields a tagged result, never an escaping
exception. -/
def fetchCnbRates (net : NetworkOutcome) : FetchRatesResult :=
  match net with
  | .response status body =>
    if statusOk status then
      { success := true, rates := some (parseRatesText body), error := none }
    else
      { success := false, rates := none
        error := some ("CNB API returned status " ++ toString status) }
  | .thrown msg =>
    { success := false, rates := none
      error := some ("Failed to fetch rates: " ++ msg) }

/-- `formatPrice` from `packages/shared/src/utils/formatting.ts` renders via
`Intl.NumberFormat`, which is runtime-library behaviour outside the
embeddable fragment; it is abstracted to a currency-tagged rendering.  No
claim depends on its output, only on where the source applies it versus the
literal "N/A". -/
def formatPrice (amount : ℚ) (currencyCode : String) : String :=
  currencyCode ++ " " ++ toString amount

/-- `formatPriceCZK` from `formatting.ts`, abstracted the same way. -/
def formatPriceCZK (amount : ℚ) : String :=
  toString amount ++ " Kc"

/-- `CurrencyConversionResult`. -/
structure CurrencyConversionResult where
  code : SupportedCurrency
  amount : Option ℚ
  formatted : String
deriving DecidableEq

/-- `ConversionResult`. -/
structure ConversionResult where
  originalCzk : ℚ
  fxAvailable : Bool
  conversions : List CurrencyConversionResult
deriving DecidableEq

/-- Loop body of `convertFromCzk` for one supported currency: the
accumulator carries the `conversions` array and the `hasAnyConversion`
flag. -/
def convertStep (amountCzk : ℚ) (rates : Option CnbRates)
    (acc : List CurrencyConversionResult × Bool) (code : SupportedCurrency) :
    List CurrencyConversionResult × Bool :=
  match rates.bind (fun r => r.rateOf code) with
  | some rate =>
    if rate > 0 then
      let roundedAmount := roundToTwoDecimals (amountCzk / rate)
      (acc.1 ++ [⟨code, some roundedAmount, formatPrice roundedAmount code.codeStr⟩], true)
    else
      (acc.1 ++ [⟨code, none, "N/A"⟩], acc.2)
  | none => (acc.1 ++ [⟨code, none, "N/A"⟩], acc.2)

/-- `convertFromCzk` from `cnbRates.service.ts`. -/
def convertFromCzk (amountCzk : ℚ) (rates : Option CnbRates) : ConversionResult :=
  let res := SUPPORTED_CURRENCIES.foldl (convertStep amountCzk rates) ([], false)
  { originalCzk := amountCzk, fxAvailable := res.2, conversions := res.1 }

/-- The conversion entry `convertFromCzk` produces for one currency
(proof helper; `convertFromCzk_eq` relates it to the loop). -/
def convertOne (amountCzk : ℚ) (rates : Option CnbRates) (code : SupportedCurrency) :
    CurrencyConversionResult :=
  match rates.bind (fun r => r.rateOf code) with
  | some rate =>
    if rate > 0 then
      let roundedAmount := roundToTwoDecimals (amountCzk / rate)
      ⟨code, some roundedAmount, formatPrice roundedAmount code.codeStr⟩
    else ⟨code, none, "N/A"⟩
  | none => ⟨code, none, "N/A"⟩

/-- `fetchAndConvert`: fetch rates, then convert. -/
def fetchAndConvert (amountCzk : ℚ) (net : NetworkOutcome) : ConversionResult :=
  convertFromCzk amountCzk (fetchCnbRates net).rates

/-- `fetchCnbRates` with an outbound-request counter: the body executes its
single `fetch(CNB_API_URL, ...)` call unconditionally on every invocation —
`cnbRatesService` holds no cache state anywhere — so each call performs
exactly one outbound request. -/
def fetchCnbRatesCounted (net : NetworkOutcome) : FetchRatesResult × ℕ :=
  (fetchCnbRates net, 1)

/-- `fetchAndConvert` with the outbound-request counter threaded through. -/
def fetchAndConvertCounted (amountCzk : ℚ) (net : NetworkOutcome) : ConversionResult × ℕ :=
  let (res, k) := fetchCnbRatesCounted net
  (convertFromCzk amountCzk res.rates, k)

-- ===========================================================================
-- Orders service (orders.service.ts, concatenated after cnbRates.service.ts)
-- ===========================================================================

/-- Customer fields of `CreateOrderInput` (opaque strings to the core). -/
structure Customer where
  name : String
  email : String
  phone : String
  addressLine1 : String
  addressLine2 : Option String
  city : String
  country : String
  zipCode : String
deriving DecidableEq

/-- `CreateOrderInput`. -/
structure CreateOrderInput where
  productId : ℕ
  quantity : ℤ
  customer : Customer
deriving DecidableEq

/-- A `Product` row (creation timestamp omitted; no claim depends on it). -/
structure Product where
  id : ℕ
  title : String
  description : Option String
  priceCzk : ℚ
  quantity : ℤ
deriving DecidableEq

/-- An `Order` row as persisted by `tx.order.create` (customer fields kept
as one nested record; timestamps omitted). -/
structure OrderRow where
  id : ℕ
  productId : ℕ
  customer : Customer
  quantity : ℤ
  unitPriceCzk : ℚ
  subtotalCzk : ℚ
  vatRate : ℚ
  vatAmountCzk : ℚ
  totalPriceCzk : ℚ
deriving DecidableEq

/-- The database state visible to the service: product rows and order rows. -/
structure Db where
  products : List Product
  orders : List OrderRow
deriving DecidableEq

/-- Error taxonomy of `lib/errors.ts` as raised by `ordersService.create`:
`NotFoundError` (404), `ConflictError` (409), plus an opaque storage
failure. -/
inductive OrdersError where
  | notFound (resource : String) (id : ℕ)
  | conflict (message : String)
  | storage
deriving DecidableEq

/-- The `ConflictError` message built in `ordersService.create`. -/
def insufficientStockMessage (available requested : ℤ) : String :=
  "Insufficient stock. Available: " ++ toString available
    ++ ", Requested: " ++ toString requested

/-- `tx.product.findUnique({ where: { id } })`. -/
def findUniqueProduct (db : Db) (id : ℕ) : Option Product :=
  db.products.find? (fun p => p.id == id)

/-- Storage faults injected at the two write steps inside the transaction,
to model `StorageFailure` (constraint violation, connectivity loss). -/
inductive StorageFault where
  | ok
  | insertFails
  | updateFails
deriving DecidableEq

/-- Autoincrement order id. -/
def nextOrderId (db : Db) : ℕ := db.orders.length + 1

/-- `tx.product.update({ where: { id }, data: { quantity: { decrement: n } } })`. -/
def decrementProduct (db : Db) (id : ℕ) (n : ℤ) : Db :=
  { db with
    products := db.products.map
      (fun p => if p.id == id then { p with quantity := p.quantity - n } else p) }

/-- The order row `tx.order.create` inserts: the breakdown computed by
`calculateVatBreakdown` from the product's current unit price, the
requested quantity and `DEFAULT_VAT_RATE` is persisted as a frozen
snapshot. -/
def mkOrderRow (db : Db) (input : CreateOrderInput) (product : Product) : OrderRow :=
  { id := nextOrderId db
    productId := input.productId
    customer := input.customer
    quantity := input.quantity
    unitPriceCzk := product.priceCzk
    subtotalCzk := (calculateVatBreakdown
      ⟨.fin product.priceCzk, .fin (input.quantity : ℚ), some DEFAULT_VAT_RATE⟩).subtotalCzk
    vatRate := (calculateVatBreakdown
      ⟨.fin product.priceCzk, .fin (input.quantity : ℚ), some DEFAULT_VAT_RATE⟩).vatRate
    vatAmountCzk := (calculateVatBreakdown
      ⟨.fin product.priceCzk, .fin (input.quantity : ℚ), some DEFAULT_VAT_RATE⟩).vatAmountCzk
    totalPriceCzk := (calculateVatBreakdown
      ⟨.fin product.priceCzk, .fin (input.quantity : ℚ), some DEFAULT_VAT_RATE⟩).totalCzk }

/-- Body of the `prisma.$transaction` callback in `ordersService.create`:
fetch product, check availability, compute prices via
`calculateVatBreakdown`, insert the order (`mkOrderRow`), decrement the
product quantity.  A storage fault at the insert or at the update step
aborts the callback; on the fault-free path the returned state carries both
writes. -/
def createTxBody (fault : StorageFault) (db : Db) (input : CreateOrderInput) :
    Except OrdersError (Db × OrderRow) :=
  match findUniqueProduct db input.productId with
  | none => .error (.notFound "Product" input.productId)
  | some product =>
    if product.quantity < input.quantity then
      .error (.conflict (insufficientStockMessage product.quantity input.quantity))
    else if fault = .insertFails then .error .storage
    else if fault = .updateFails then .error .storage
    else
      .ok (decrementProduct { db with orders := db.orders ++ [mkOrderRow db input product] }
            input.productId input.quantity,
          mkOrderRow db input product)

/-- `prisma.$transaction` around `createTxBody`: the persistence engine is an
external collaborator with standard ACID semantics (spec §1), so if the
callback throws, every write it made is rolled back and the error
propagates; otherwise the new state is committed. -/
def runCreate (fault : StorageFault) (db : Db) (input : CreateOrderInput) :
    Db × Except OrdersError OrderRow :=
  match createTxBody fault db input with
  | .ok (db2, order) => (db2, .ok order)
  | .error e => (db, .error e)

/-- The stored quantity of a product. -/
def productQuantity (db : Db) (id : ℕ) : Option ℤ :=
  (findUniqueProduct db id).map (fun p => p.quantity)

-- ===========================================================================
-- Response assembly (enrichOrderWithConversions, ordersController.getSummary)
-- ===========================================================================

/-- A conversion entry of the create-order / get-order responses: the
`amount` field is a plain number (never null). -/
structure EnrichedConversion where
  code : SupportedCurrency
  amount : ℚ
  formatted : String
deriving DecidableEq

/-- The `fxResult.conversions.map((c) => ({ code: c.code, amount: c.amount ?? 0,
formatted: c.formatted }))` step of `enrichOrderWithConversions`. -/
def enrichConversions (conversions : List CurrencyConversionResult) :
    List EnrichedConversion :=
  conversions.map (fun c => ⟨c.code, c.amount.getD 0, c.formatted⟩)

/-- `OrderWithConversions` restricted to the order fields and the
conversions; the presentation-only customer and product-DTO fields are
omitted (no claim mentions them). -/
structure OrderWithConversions where
  id : ℕ
  productId : ℕ
  quantity : ℤ
  unitPriceCzk : ℚ
  subtotalCzk : ℚ
  vatRate : ℚ
  vatAmountCzk : ℚ
  totalPriceCzk : ℚ
  conversions : List EnrichedConversion
deriving DecidableEq

/-- `ordersService.enrichOrderWithConversions`: fetch-and-convert on the
order's total, then coerce each conversion's amount through `?? 0`. -/
def enrichOrderWithConversions (order : OrderRow) (net : NetworkOutcome) :
    OrderWithConversions :=
  let totalCzk := order.totalPriceCzk
  let fxResult := fetchAndConvert totalCzk net
  { id := order.id
    productId := order.productId
    quantity := order.quantity
    unitPriceCzk := order.unitPriceCzk
    subtotalCzk := order.subtotalCzk
    vatRate := order.vatRate
    vatAmountCzk := order.vatAmountCzk
    totalPriceCzk := totalCzk
    conversions := enrichConversions fxResult.conversions }

/-- `OrderBasic` as returned by `ordersService.findByIdBasic`. -/
structure OrderBasic where
  id : ℕ
  productId : ℕ
  productTitle : String
  quantity : ℤ
  customerName : String
  customerEmail : String
  unitPriceCzk : ℚ
  subtotalCzk : ℚ
  vatRate : ℚ
  vatAmountCzk : ℚ
  totalPriceCzk : ℚ
deriving DecidableEq

/-- The `czkTotals` object built by `ordersController.getSummary`. -/
structure CzkTotals where
  subtotalCzk : ℚ
  vatAmountCzk : ℚ
  vatRate : ℚ
  totalCzk : ℚ
  formattedSubtotal : String
  formattedVatAmount : String
  formattedTotal : String
deriving DecidableEq

/-- The `totals.fx` section of the summary response. -/
structure FxSection where
  available : Bool
  error : Option String
  conversions : List CurrencyConversionResult
deriving DecidableEq

/-- The summary response of `GET /orders/:id/summary`. -/
structure OrderSummary where
  orderId : ℕ
  productTitle : String
  quantity : ℤ
  czk : CzkTotals
  fx : FxSection
deriving DecidableEq

/-- `ordersController.getSummary` (part_006, lines 118-169) after the order
has been loaded: build the CZK totals from the stored order, attempt the
rate fetch, convert, and assemble the response; the fx error is
`fxResult.success ? undefined : fxResult.error`. -/
def getSummary (order : OrderBasic) (net : NetworkOutcome) : OrderSummary :=
  let czkTotals : CzkTotals :=
    { subtotalCzk := order.subtotalCzk
      vatAmountCzk := order.vatAmountCzk
      vatRate := order.vatRate
      totalCzk := order.totalPriceCzk
      formattedSubtotal := formatPriceCZK order.subtotalCzk
      formattedVatAmount := formatPriceCZK order.vatAmountCzk
      formattedTotal := formatPriceCZK order.totalPriceCzk }
  let fxResult := fetchCnbRates net
  let conversionResult := convertFromCzk order.totalPriceCzk fxResult.rates
  { orderId := order.id
    productTitle := order.productTitle
    quantity := order.quantity
    czk := czkTotals
    fx :=
      { available := conversionResult.fxAvailable
        error := if fxResult.success then none else fxResult.error
        conversions := conversionResult.conversions } }

-- ===========================================================================
-- Two concurrent create-transactions under READ COMMITTED
-- ===========================================================================

/-- Events of two interleaved `ordersService.create` transactions on the
same product: each transaction performs its `findUnique` read and then
commits (its stock check, order insert and quantity decrement). -/
inductive TxEvent where
  | readFst
  | readSnd
  | commitFst
  | commitSnd
deriving DecidableEq

/-- Shared state of the two-transaction execution: the committed product
quantity, the quantity value each transaction's `findUnique` read, and each
transaction's outcome (`some true` = committed, `some false` =
`ConflictError`). -/
structure ConcState where
  quantity : ℤ
  readFst : Option ℤ
  readSnd : Option ℤ
  resultFst : Option Bool
  resultSnd : Option Bool
deriving DecidableEq

/-- One event of the interleaved execution under READ COMMITTED isolation
(the PostgreSQL default; the repository configures no isolation level): a
transaction's `findUnique` sees the latest committed quantity; at commit
time its stock check `product.quantity < input.quantity` uses that
(possibly stale) read value, while the `decrement` update applies
atomically to the then-current committed row. -/
def concStep (needFst needSnd : ℤ) (s : ConcState) : TxEvent → ConcState
  | .readFst => { s with readFst := some s.quantity }
  | .readSnd => { s with readSnd := some s.quantity }
  | .commitFst =>
    match s.readFst with
    | none => s
    | some q =>
      if q < needFst then { s with resultFst := some false }
      else { s with quantity := s.quantity - needFst, resultFst := some true }
  | .commitSnd =>
    match s.readSnd with
    | none => s
    | some q =>
      if q < needSnd then { s with resultSnd := some false }
      else { s with quantity := s.quantity - needSnd, resultSnd := some true }

/-- Run a schedule of events for two create-transactions requesting
`needFst` and `needSnd` units against an initial stock. -/
def runConc (stock needFst needSnd : ℤ) (events : List TxEvent) : ConcState :=
  events.foldl (concStep needFst needSnd) ⟨stock, none, none, none, none⟩

-- ===========================================================================
-- Sample data for concrete evaluations
-- ===========================================================================

/-- A sample customer record. -/
def sampleCustomer : Customer :=
  { name := "Jan Novak"
    email := "jan@example.com"
    phone := "+420123456789"
    addressLine1 := "Street 1"
    addressLine2 := none
    city := "Praha"
    country := "CZ"
    zipCode := "11000" }

/-- A sample product: id 1, unit price 100 CZK, 5 in stock. -/
def sampleProduct : Product :=
  { id := 1, title := "Widget", description := none, priceCzk := 100, quantity := 5 }

/-- A sample database with one product and no orders. -/
def sampleDb : Db := { products := [sampleProduct], orders := [] }

/-- A sample stored order used for summary-assembly evaluations. -/
def sampleOrderBasic : OrderBasic :=
  { id := 1
    productId := 1
    productTitle := "Widget"
    quantity := 3
    customerName := "Jan Novak"
    customerEmail := "jan@example.com"
    unitPriceCzk := 100
    subtotalCzk := 300
    vatRate := 21/100
    vatAmountCzk := 63
    totalPriceCzk := 363 }

/-- A sample stored order row used for enrichment evaluations. -/
def sampleOrderRow : OrderRow :=
  { id := 1
    productId := 1
    customer := sampleCustomer
    quantity := 3
    unitPriceCzk := 100
    subtotalCzk := 300
    vatRate := 21/100
    vatAmountCzk := 63
    totalPriceCzk := 363 }

end FapiOrder

-- ===========================================================================
-- Supporting lemmas
-- ===========================================================================

namespace FapiOrder

theorem roundToTwoDecimals_int_div (n : ℤ) :
    roundToTwoDecimals ((n : ℚ) / 100) = (n : ℚ) / 100 := by
  rw [roundToTwoDecimals, roundJs_eq]
  have h1 : (n : ℚ) / 100 * 100 = (n : ℚ) := by field_simp
  rw [h1, Int.floor_int_add]
  norm_num

theorem roundToTwoDecimals_exists_int (x : ℚ) :
    ∃ n : ℤ, roundToTwoDecimals x = (n : ℚ) / 100 :=
  ⟨roundJs (x * 100), rfl⟩

theorem abs_roundToTwoDecimals_sub_le (x : ℚ) :
    |roundToTwoDecimals x - x| ≤ 1/200 := by
  rw [roundToTwoDecimals, roundJs_eq, abs_le]
  have hf1 : ((⌊x * 100 + 1/2⌋ : ℤ) : ℚ) ≤ x * 100 + 1/2 := Int.floor_le _
  have hf2 : x * 100 + 1/2 < (⌊x * 100 + 1/2⌋ : ℤ) + 1 := Int.lt_floor_add_one _
  constructor <;> [linarith; linarith]

theorem roundToTwoDecimals_nonneg {x : ℚ} (h : 0 ≤ x) :
    0 ≤ roundToTwoDecimals x := by
  rw [roundToTwoDecimals, roundJs_eq]
  have hz : (0 : ℤ) ≤ ⌊x * 100 + 1/2⌋ := Int.le_floor.2 (by push_cast; linarith)
  have : (0 : ℚ) ≤ ((⌊x * 100 + 1/2⌋ : ℤ) : ℚ) := by exact_mod_cast hz
  linarith

theorem sanitizePrice_nonneg (j : JsNum) : 0 ≤ sanitizePrice j := by
  cases j with
  | fin q =>
    simp only [sanitizePrice]
    split
    · exact le_refl 0
    · exact le_max_left 0 q
  | nan => exact le_refl 0
  | posInf => exact le_refl 0
  | negInf => exact le_refl 0

theorem sanitizeQuantity_nonneg (j : JsNum) : 0 ≤ sanitizeQuantity j := by
  cases j with
  | fin q =>
    simp only [sanitizeQuantity]
    split
    · exact le_refl 0
    · exact le_max_left 0 _
  | nan => exact le_refl 0
  | posInf => exact le_refl 0
  | negInf => exact le_refl 0

theorem sanitizePrice_of_nonneg {x : ℚ} (h : 0 ≤ x) : sanitizePrice (.fin x) = x := by
  simp only [sanitizePrice]
  rw [if_neg (not_lt.2 h)]
  exact max_eq_right h

theorem roundTwo_add_self (x y : ℚ) :
    roundToTwoDecimals (roundToTwoDecimals x + roundToTwoDecimals y)
      = roundToTwoDecimals x + roundToTwoDecimals y := by
  obtain ⟨m, hm⟩ := roundToTwoDecimals_exists_int x
  obtain ⟨n, hn⟩ := roundToTwoDecimals_exists_int y
  rw [hm, hn]
  have h : (m : ℚ)/100 + (n : ℚ)/100 = ((m + n : ℤ) : ℚ)/100 := by push_cast; ring
  rw [h, roundToTwoDecimals_int_div]

theorem convertStep_eq (amountCzk : ℚ) (rates : Option CnbRates)
    (acc : List CurrencyConversionResult × Bool) (code : SupportedCurrency) :
    convertStep amountCzk rates acc code
      = (acc.1 ++ [convertOne amountCzk rates code],
         acc.2 || (convertOne amountCzk rates code).amount.isSome) := by
  unfold convertStep convertOne
  cases rates.bind (fun r => r.rateOf code) with
  | none => simp
  | some rate =>
    by_cases h : rate > 0
    · simp [h]
    · simp [h]

theorem convertFromCzk_eq (amountCzk : ℚ) (rates : Option CnbRates) :
    convertFromCzk amountCzk rates
      = { originalCzk := amountCzk
          fxAvailable :=
            (convertOne amountCzk rates .EUR).amount.isSome
              || (convertOne amountCzk rates .USD).amount.isSome
              || (convertOne amountCzk rates .PLN).amount.isSome
          conversions :=
            [convertOne amountCzk rates .EUR, convertOne amountCzk rates .USD,
             convertOne amountCzk rates .PLN] } := by
  unfold convertFromCzk SUPPORTED_CURRENCIES
  simp [List.foldl, convertStep_eq, Bool.or_assoc]

theorem priceBeforeVat_roundtrip (t r : ℚ) (ht : 0 ≤ t) (hr0 : 0 ≤ r) (hr1 : r ≤ 1) :
    |t - calculatePriceBeforeVat (.fin t) r * (1 + r)| ≤ 1/100 := by
  have h1r : (0 : ℚ) < 1 + r := by linarith
  have hP : calculatePriceBeforeVat (.fin t) r = roundToTwoDecimals (t / (1 + r)) := by
    rw [calculatePriceBeforeVat, sanitizePrice_of_nonneg ht]
  rw [hP]
  have habs := abs_roundToTwoDecimals_sub_le (t / (1 + r))
  have hrw : t - roundToTwoDecimals (t / (1 + r)) * (1 + r)
      = -((roundToTwoDecimals (t / (1 + r)) - t / (1 + r)) * (1 + r)) := by
    field_simp
  rw [hrw, abs_neg, abs_mul, abs_of_pos h1r]
  calc |roundToTwoDecimals (t / (1 + r)) - t / (1 + r)| * (1 + r)
      ≤ (1/200) * 2 := mul_le_mul habs (by linarith) (le_of_lt h1r) (by norm_num)
    _ = 1/100 := by norm_num

theorem find?_map_decrement (id : ℕ) (n : ℤ) (l : List Product) :
    (l.map (fun p => if p.id == id then { p with quantity := p.quantity - n } else p)).find?
        (fun p => p.id == id)
      = (l.find? (fun p => p.id == id)).map
          (fun p => { p with quantity := p.quantity - n }) := by
  induction l with
  | nil => rfl
  | cons p ps ih =>
    by_cases h : p.id = id
    · simp [List.find?_cons, h]
    · have hnb : ¬ ((p.id == id) = true) := by simpa using h
      have hb : (p.id == id) = false := by simpa using h
      simp only [List.map_cons, List.find?_cons]
      rw [if_neg hnb, hb]
      exact ih

theorem findUniqueProduct_decrement (db : Db) (id : ℕ) (n : ℤ) :
    findUniqueProduct (decrementProduct db id n) id
      = (findUniqueProduct db id).map (fun p => { p with quantity := p.quantity - n }) := by
  unfold findUniqueProduct decrementProduct
  exact find?_map_decrement id n db.products

theorem productQuantity_decrement (db : Db) (id : ℕ) (n : ℤ) :
    productQuantity (decrementProduct db id n) id
      = (productQuantity db id).map (fun q => q - n) := by
  unfold productQuantity
  rw [findUniqueProduct_decrement]
  cases findUniqueProduct db id <;> rfl

theorem createTxBody_ok_shape (fault : StorageFault) (db : Db) (input : CreateOrderInput)
    (dbX : Db) (ord : OrderRow)
    (h : createTxBody fault db input = .ok (dbX, ord)) :
    dbX = decrementProduct { db with orders := db.orders ++ [ord] }
        input.productId input.quantity := by
  unfold createTxBody at h
  split at h
  · exact Except.noConfusion h
  · split_ifs at h with hlt hif1 hif2
    all_goals
      first
        | exact Except.noConfusion h
        | (injection h with hpair
           injection hpair with ha hb
           rw [← ha, hb])

theorem createTxBody_none (fault : StorageFault) (db : Db) (input : CreateOrderInput)
    (h : findUniqueProduct db input.productId = none) :
    createTxBody fault db input = .error (.notFound "Product" input.productId) := by
  unfold createTxBody
  rw [h]

theorem createTxBody_conflict (fault : StorageFault) (db : Db) (input : CreateOrderInput)
    (product : Product) (hp : findUniqueProduct db input.productId = some product)
    (hlt : product.quantity < input.quantity) :
    createTxBody fault db input
      = .error (.conflict (insufficientStockMessage product.quantity input.quantity)) := by
  unfold createTxBody
  simp only [hp]
  rw [if_pos hlt]

theorem createTxBody_ok_success (db : Db) (input : CreateOrderInput)
    (product : Product) (hp : findUniqueProduct db input.productId = some product)
    (hge : ¬ product.quantity < input.quantity) :
    createTxBody .ok db input
      = .ok (decrementProduct { db with orders := db.orders ++ [mkOrderRow db input product] }
              input.productId input.quantity,
            mkOrderRow db input product) := by
  unfold createTxBody
  simp only [hp]
  rw [if_neg hge]
  rfl

theorem createTxBody_updateFails (db : Db) (input : CreateOrderInput)
    (product : Product) (hp : findUniqueProduct db input.productId = some product)
    (hge : ¬ product.quantity < input.quantity) :
    createTxBody .updateFails db input = .error .storage := by
  unfold createTxBody
  simp only [hp]
  rw [if_neg hge]
  rfl

end FapiOrder

-- ===========================================================================
-- Claim theorems
-- ===========================================================================

namespace FapiOrder

/-- C1: `calculateVatBreakdown` first sanitizes its inputs (non-finite or
negative unit prices become 0; non-finite or negative quantities become 0 and
fractional quantities are rounded to the nearest integer) and then computes
`subtotal = round2(unitPrice * quantity)`, `taxAmount = round2(subtotal * taxRate)`,
`total = round2(subtotal + taxAmount)`, each intermediate independently rounded
before the next step; it is a total function (never throws); and on
unitPrice 333.33, quantity 3, taxRate 0.21 it returns subtotal 999.99,
taxAmount 210.00, total 1209.99. -/
theorem claim1_vat_breakdown_pipeline (input : VatCalculationInput) :
    (calculateVatBreakdown input).subtotalCzk
        = roundToTwoDecimals (sanitizePrice input.unitPriceCzk * sanitizeQuantity input.quantity)
    ∧ (calculateVatBreakdown input).vatAmountCzk
        = roundToTwoDecimals
            ((calculateVatBreakdown input).subtotalCzk * input.vatRate.getD DEFAULT_VAT_RATE)
    ∧ (calculateVatBreakdown input).totalCzk
        = roundToTwoDecimals
            ((calculateVatBreakdown input).subtotalCzk + (calculateVatBreakdown input).vatAmountCzk)
    ∧ (∀ p : JsNum, p.isFinite = false → sanitizePrice p = 0)
    ∧ (∀ x : ℚ, x < 0 → sanitizePrice (.fin x) = 0)
    ∧ (∀ p : JsNum, p.isFinite = false → sanitizeQuantity p = 0)
    ∧ (∀ x : ℚ, x < 0 → sanitizeQuantity (.fin x) = 0)
    ∧ (∀ x : ℚ, 0 ≤ x → sanitizeQuantity (.fin x) = ((roundJs x : ℤ) : ℚ))
    ∧ calculateVatBreakdown ⟨.fin (33333/100), .fin 3, some (21/100)⟩
        = ⟨99999/100, 210, 120999/100, 21/100⟩ := by
  refine ⟨rfl, rfl, rfl, ?_, ?_, ?_, ?_, ?_, ?_⟩
  · intro p hp; cases p <;> simp_all [JsNum.isFinite, sanitizePrice]
  · intro x hx; simp [sanitizePrice, if_pos hx]
  · intro p hp; cases p <;> simp_all [JsNum.isFinite, sanitizeQuantity]
  · intro x hx; simp [sanitizeQuantity, if_pos hx]
  · intro x hx
    simp only [sanitizeQuantity]
    rw [if_neg (not_lt.2 hx)]
    refine max_eq_right ?_
    rw [roundJs_eq]
    have hz : (0 : ℤ) ≤ ⌊x + 1/2⌋ := Int.le_floor.2 (by push_cast; linarith)
    exact_mod_cast hz
  · simp only [calculateVatBreakdown, sanitizePrice, sanitizeQuantity, roundToTwoDecimals,
      roundJs_eq, Option.getD]
    norm_num

/-- Witness for C1 at concrete inputs. -/
theorem claim1_vat_breakdown_pipeline_witness :
    sanitizePrice .nan = 0
    ∧ sanitizeQuantity (.fin (-5)) = 0
    ∧ calculateVatBreakdown ⟨.fin (33333/100), .fin 3, some (21/100)⟩
        = ⟨99999/100, 210, 120999/100, 21/100⟩ := by
  have h := claim1_vat_breakdown_pipeline ⟨.fin 1, .fin 1, none⟩
  exact ⟨h.2.2.2.1 .nan rfl, h.2.2.2.2.2.2.1 (-5) (by norm_num), h.2.2.2.2.2.2.2.2⟩

/-- C9: for non-negative unit price and quantity and tax rate in `[0,1]`,
`subtotal + taxAmount = total` holds exactly (hence certainly to within
rounding), and `total` is within one rounding unit (0.01) of
`calculatePriceBeforeVat total taxRate * (1 + taxRate)`. -/
theorem claim9_vat_algebra (p q r : ℚ) (hp : 0 ≤ p) (hq : 0 ≤ q)
    (hr0 : 0 ≤ r) (hr1 : r ≤ 1) :
    (calculateVatBreakdown ⟨.fin p, .fin q, some r⟩).subtotalCzk
        + (calculateVatBreakdown ⟨.fin p, .fin q, some r⟩).vatAmountCzk
      = (calculateVatBreakdown ⟨.fin p, .fin q, some r⟩).totalCzk
    ∧ |(calculateVatBreakdown ⟨.fin p, .fin q, some r⟩).totalCzk
        - calculatePriceBeforeVat
            (.fin (calculateVatBreakdown ⟨.fin p, .fin q, some r⟩).totalCzk) r * (1 + r)|
      ≤ 1/100 := by
  have hx : 0 ≤ roundToTwoDecimals (sanitizePrice (JsNum.fin p) * sanitizeQuantity (JsNum.fin q)) :=
    roundToTwoDecimals_nonneg (mul_nonneg (sanitizePrice_nonneg _) (sanitizeQuantity_nonneg _))
  have hy : 0 ≤ roundToTwoDecimals
      (roundToTwoDecimals (sanitizePrice (JsNum.fin p) * sanitizeQuantity (JsNum.fin q)) * r) :=
    roundToTwoDecimals_nonneg (mul_nonneg hx hr0)
  have htotn : 0 ≤ (calculateVatBreakdown ⟨.fin p, .fin q, some r⟩).totalCzk :=
    roundToTwoDecimals_nonneg (add_nonneg hx hy)
  constructor
  · exact (roundTwo_add_self (sanitizePrice (JsNum.fin p) * sanitizeQuantity (JsNum.fin q))
      (roundToTwoDecimals (sanitizePrice (JsNum.fin p) * sanitizeQuantity (JsNum.fin q)) * r)).symm
  · exact priceBeforeVat_roundtrip _ r htotn hr0 hr1

theorem fetchCnbRates_failure_shape (net : NetworkOutcome)
    (h : (fetchCnbRates net).success = false) :
    (fetchCnbRates net).rates = none ∧ ∃ msg, (fetchCnbRates net).error = some msg := by
  cases net with
  | response status body =>
    by_cases hok : statusOk status
    · simp [fetchCnbRates, hok] at h
    · simp [fetchCnbRates, hok]
  | thrown msg => simp [fetchCnbRates]

theorem convertFromCzk_none (amount : ℚ) :
    convertFromCzk amount none
      = { originalCzk := amount
          fxAvailable := false
          conversions := [⟨.EUR, none, "N/A"⟩, ⟨.USD, none, "N/A"⟩, ⟨.PLN, none, "N/A"⟩] } := by
  rw [convertFromCzk_eq]
  simp [convertOne]

/-- C2 (evaluation of the failing input): under READ COMMITTED isolation —
the PostgreSQL default, and the repository configures no isolation level —
the interleaving in which both transactions perform their `findUnique` read
before either commits lets both stock checks pass against the stale value 5:
both orders commit and the stored quantity ends at -1.  The serialized
schedule, by contrast, gives the second transaction a Conflict and leaves
stock at 2.  This refutes "at most one commits and quantity never becomes
negative in every reachable interleaving" for the check-then-decrement
transaction body of `ordersService.create`. -/
theorem claim2_oversell_under_read_committed :
    (runConc 5 3 3 [.readFst, .readSnd, .commitFst, .commitSnd]).resultFst = some true
    ∧ (runConc 5 3 3 [.readFst, .readSnd, .commitFst, .commitSnd]).resultSnd = some true
    ∧ (runConc 5 3 3 [.readFst, .readSnd, .commitFst, .commitSnd]).quantity = -1
    ∧ (runConc 5 3 3 [.readFst, .commitFst, .readSnd, .commitSnd]).resultFst = some true
    ∧ (runConc 5 3 3 [.readFst, .commitFst, .readSnd, .commitSnd]).resultSnd = some false
    ∧ (runConc 5 3 3 [.readFst, .commitFst, .readSnd, .commitSnd]).quantity = 2 := by
  decide

/-- C8 (evaluation of the failing input): `cnbRatesService` holds no cache
state, so every rate read — `fetchAndConvert` as called by
`enrichOrderWithConversions`, and `fetchCnbRates` as called by
`getSummary` — performs exactly one outbound CNB request, including any
read within an hour of a previous successful fetch.  This refutes "every
subsequent rate read within the freshness window is served from the cache
and never issues a new outbound network request". -/
theorem claim8_every_rate_read_fetches (amountCzk : ℚ) (net : NetworkOutcome) :
    (fetchAndConvertCounted amountCzk net).2 = 1
    ∧ (fetchCnbRatesCounted net).2 = 1 :=
  ⟨rfl, rfl⟩

/-- C5: `convertFromCzk` yields, for each supported currency,
`round2(amount / rate)` when the rate is present and strictly positive and
the explicit unavailable marker (`amount = none`, distinct from 0)
otherwise; the availability flag is true iff at least one currency
converted; and `convert(1000, (EUR: 24.725, USD: null, PLN: 5.5))` yields
EUR 40.44, USD unavailable, PLN 181.82 with the flag true. -/
theorem claim5_convert_from_czk (amount : ℚ) (rates : Option CnbRates) :
    (∀ code : SupportedCurrency, ∀ r : ℚ,
      rates.bind (fun t => t.rateOf code) = some r → r > 0 →
        convertOne amount rates code
          = ⟨code, some (roundToTwoDecimals (amount / r)),
             formatPrice (roundToTwoDecimals (amount / r)) code.codeStr⟩)
    ∧ (∀ code : SupportedCurrency,
        (rates.bind (fun t => t.rateOf code) = none
          ∨ ∃ r, rates.bind (fun t => t.rateOf code) = some r ∧ ¬ r > 0) →
        convertOne amount rates code = ⟨code, none, "N/A"⟩)
    ∧ (convertFromCzk amount rates).conversions
        = [convertOne amount rates .EUR, convertOne amount rates .USD,
           convertOne amount rates .PLN]
    ∧ (convertFromCzk amount rates).fxAvailable
        = (convertFromCzk amount rates).conversions.any (fun c => c.amount.isSome)
    ∧ convertFromCzk 1000 (some ⟨some (24725/1000), none, some (11/2)⟩)
        = { originalCzk := 1000
            fxAvailable := true
            conversions :=
              [⟨.EUR, some (4044/100), formatPrice (4044/100) "EUR"⟩,
               ⟨.USD, none, "N/A"⟩,
               ⟨.PLN, some (18182/100), formatPrice (18182/100) "PLN"⟩] } := by
  refine ⟨?_, ?_, ?_, ?_, ?_⟩
  · intro code r hr hpos
    unfold convertOne
    rw [hr]
    simp [hpos]
  · intro code h
    unfold convertOne
    rcases h with h | ⟨r, hr, hneg⟩
    · rw [h]
    · rw [hr]; simp [hneg]
  · rw [convertFromCzk_eq]
  · rw [convertFromCzk_eq]
    simp [List.any, Bool.or_assoc]
  · rw [convertFromCzk_eq]
    simp only [convertOne, CnbRates.rateOf, Option.bind, SupportedCurrency.codeStr]
    norm_num [roundToTwoDecimals, roundJs_eq]

/-- Witness for C5 at amount 1000 and the example rate table. -/
theorem claim5_convert_from_czk_witness :
    convertOne 1000 (some ⟨some (24725/1000), none, some (11/2)⟩) .EUR
      = ⟨.EUR, some (roundToTwoDecimals (1000 / (24725/1000))),
         formatPrice (roundToTwoDecimals (1000 / (24725/1000)))
           (SupportedCurrency.codeStr .EUR)⟩
    ∧ convertOne 1000 (some ⟨some (24725/1000), none, some (11/2)⟩) .USD
      = ⟨.USD, none, "N/A"⟩ := by
  have h := claim5_convert_from_czk 1000 (some ⟨some (24725/1000), none, some (11/2)⟩)
  exact ⟨h.1 .EUR (24725/1000) rfl (by norm_num), h.2.1 .USD (Or.inl rfl)⟩

/-- C10: public create-order / get-order responses are assembled by
`enrichOrderWithConversions`, which maps every conversion through
`amount ?? 0`: an unavailable conversion is reported with numeric amount 0
while its `formatted` field stays "N/A", so it is indistinguishable by its
numeric amount from a genuine converted amount of zero (evaluated in the
last two conjuncts: amount 0 both for an unavailable EUR conversion and for
a genuine zero-CZK EUR conversion). -/
theorem claim10_enrich_coerces_unavailable_to_zero (order : OrderRow) (net : NetworkOutcome) :
    (enrichOrderWithConversions order net).conversions
      = (fetchAndConvert order.totalPriceCzk net).conversions.map
          (fun c => ⟨c.code, c.amount.getD 0, c.formatted⟩)
    ∧ (∀ (a : ℚ) (rates : Option CnbRates) (code : SupportedCurrency),
        (convertOne a rates code).amount = none →
          convertOne a rates code = ⟨code, none, "N/A"⟩)
    ∧ (∀ c : CurrencyConversionResult, c.amount = none →
        (⟨c.code, c.amount.getD 0, c.formatted⟩ : EnrichedConversion) = ⟨c.code, 0, c.formatted⟩)
    ∧ (enrichConversions (convertFromCzk 363 none).conversions).head?
        = some ⟨.EUR, 0, "N/A"⟩
    ∧ (enrichConversions
        (convertFromCzk 0 (some ⟨some (24725/1000), none, some (11/2)⟩)).conversions).head?
        = some ⟨.EUR, 0, formatPrice 0 "EUR"⟩ := by
  refine ⟨rfl, ?_, ?_, ?_, ?_⟩
  · intro a rates code h
    unfold convertOne at h ⊢
    cases hb : rates.bind (fun r => r.rateOf code) with
    | none => rfl
    | some rate =>
      rw [hb] at h
      by_cases hpos : rate > 0
      · simp [hpos] at h
      · simp [hpos]
  · intro c h
    rw [h]
    rfl
  · rw [convertFromCzk_eq]
    simp [enrichConversions, convertOne]
  · rw [convertFromCzk_eq]
    simp only [enrichConversions, convertOne, CnbRates.rateOf, Option.bind,
      SupportedCurrency.codeStr]
    norm_num [roundToTwoDecimals, roundJs_eq]

/-- Witness for C10 at a sample order and a failed fetch. -/
theorem claim10_enrich_coerces_unavailable_to_zero_witness :
    (enrichOrderWithConversions sampleOrderRow (.thrown "timeout")).conversions
      = (fetchAndConvert sampleOrderRow.totalPriceCzk (.thrown "timeout")).conversions.map
          (fun c => ⟨c.code, c.amount.getD 0, c.formatted⟩)
    ∧ convertOne 363 none .EUR = ⟨.EUR, none, "N/A"⟩ := by
  have h := claim10_enrich_coerces_unavailable_to_zero sampleOrderRow (.thrown "timeout")
  exact ⟨h.1, h.2.1 363 none .EUR rfl⟩

/-- C6: rate-acquisition failure is never fatal: `fetchCnbRates` is total
and tags every failure with a human-readable error instead of raising;
`convertFromCzk` on a null table returns all three currencies unavailable
with the flag false and no exception (totality); and the summary response
still carries the base-currency CZK totals, with the failure cause threaded
into its fx section. -/
theorem claim6_rate_failure_never_fatal (order : OrderBasic) (net : NetworkOutcome) (amount : ℚ) :
    ((fetchCnbRates net).success = false → ∃ msg, (fetchCnbRates net).error = some msg)
    ∧ convertFromCzk amount none
        = { originalCzk := amount
            fxAvailable := false
            conversions := [⟨.EUR, none, "N/A"⟩, ⟨.USD, none, "N/A"⟩, ⟨.PLN, none, "N/A"⟩] }
    ∧ ((getSummary order net).czk.subtotalCzk = order.subtotalCzk
        ∧ (getSummary order net).czk.vatAmountCzk = order.vatAmountCzk
        ∧ (getSummary order net).czk.totalCzk = order.totalPriceCzk)
    ∧ ((fetchCnbRates net).success = false →
        (getSummary order net).fx.error = (fetchCnbRates net).error
        ∧ (getSummary order net).fx.available = false
        ∧ (getSummary order net).fx.conversions
            = [⟨.EUR, none, "N/A"⟩, ⟨.USD, none, "N/A"⟩, ⟨.PLN, none, "N/A"⟩]) := by
  refine ⟨?_, convertFromCzk_none amount, ⟨rfl, rfl, rfl⟩, ?_⟩
  · intro h
    exact (fetchCnbRates_failure_shape net h).2
  · intro h
    obtain ⟨hrates, -⟩ := fetchCnbRates_failure_shape net h
    refine ⟨?_, ?_, ?_⟩
    · simp [getSummary, h]
    · simp [getSummary, hrates, convertFromCzk_none]
    · simp [getSummary, hrates, convertFromCzk_none]

/-- Witness for C6 at a sample order and a thrown network error. -/
theorem claim6_rate_failure_never_fatal_witness :
    (∃ msg, (fetchCnbRates (.thrown "timeout")).error = some msg)
    ∧ (getSummary sampleOrderBasic (.thrown "timeout")).czk.totalCzk
        = sampleOrderBasic.totalPriceCzk
    ∧ (getSummary sampleOrderBasic (.thrown "timeout")).fx.error
        = (fetchCnbRates (.thrown "timeout")).error
    ∧ (getSummary sampleOrderBasic (.thrown "timeout")).fx.available = false := by
  have h := claim6_rate_failure_never_fatal sampleOrderBasic (.thrown "timeout") 1000
  exact ⟨h.1 rfl, h.2.2.1.2.2, (h.2.2.2 rfl).1, (h.2.2.2 rfl).2.1⟩

/-- C7: `parseRatesText` skips the first two lines; a later line with fewer
than five pipe-separated fields, an unsupported currency code, a
non-numeric amount or rate, or a zero amount is silently skipped, leaving
the table unchanged; a supported row stores `parsedRate / amountUnit`
(after normalizing the comma decimal separator) for exactly its own
currency, leaving the other entries untouched; and the payload line
`EMU|euro|1|EUR|24,725` yields rate 24.725 for EUR. -/
theorem claim7_parse_rates_text :
    (∀ text : String, parseRatesText text
        = ((jsSplit (jsTrim text) '\n').drop 2).foldl processLine ⟨none, none, none⟩)
    ∧ (∀ (rates : CnbRates) (line : String),
        (jsSplit line '|').length < 5 → processLine rates line = rates)
    ∧ (∀ (rates : CnbRates) (line : String),
        ¬ (jsTrim ((jsSplit line '|').getD 3 "") = "EUR"
            ∨ jsTrim ((jsSplit line '|').getD 3 "") = "USD"
            ∨ jsTrim ((jsSplit line '|').getD 3 "") = "PLN") →
        processLine rates line = rates)
    ∧ (∀ (rates : CnbRates) (line : String),
        parseIntJs (jsTrim ((jsSplit line '|').getD 2 "")) = none →
        processLine rates line = rates)
    ∧ (∀ (rates : CnbRates) (line : String),
        parseFloatJs (jsReplaceCommaDot (jsTrim ((jsSplit line '|').getD 4 ""))) = none →
        processLine rates line = rates)
    ∧ (∀ (rates : CnbRates) (line : String),
        parseIntJs (jsTrim ((jsSplit line '|').getD 2 "")) = some 0 →
        processLine rates line = rates)
    ∧ (∀ (rates : CnbRates) (line : String) (amount : ℤ) (rate : ℚ),
        line ≠ "" →
        ¬ (jsSplit line '|').length < 5 →
        (jsTrim ((jsSplit line '|').getD 3 "") = "EUR"
          ∨ jsTrim ((jsSplit line '|').getD 3 "") = "USD"
          ∨ jsTrim ((jsSplit line '|').getD 3 "") = "PLN") →
        parseIntJs (jsTrim ((jsSplit line '|').getD 2 "")) = some amount →
        parseFloatJs (jsReplaceCommaDot (jsTrim ((jsSplit line '|').getD 4 ""))) = some rate →
        amount ≠ 0 →
        processLine rates line
          = rates.setRate (jsTrim ((jsSplit line '|').getD 3 "")) (rate / (amount : ℚ)))
    ∧ (∀ (rates : CnbRates) (v : ℚ),
        (rates.setRate "EUR" v).EUR = some v
        ∧ (rates.setRate "EUR" v).USD = rates.USD
        ∧ (rates.setRate "EUR" v).PLN = rates.PLN
        ∧ (rates.setRate "USD" v).USD = some v
        ∧ (rates.setRate "USD" v).EUR = rates.EUR
        ∧ (rates.setRate "USD" v).PLN = rates.PLN
        ∧ (rates.setRate "PLN" v).PLN = some v
        ∧ (rates.setRate "PLN" v).EUR = rates.EUR
        ∧ (rates.setRate "PLN" v).USD = rates.USD)
    ∧ parseRatesText "02.01.2024 #1\nzeme|mena|mnozstvi|kod|kurz\nEMU|euro|1|EUR|24,725"
        = ⟨some (24725/1000), none, none⟩ := by
  refine ⟨fun _ => rfl, ?_, ?_, ?_, ?_, ?_, ?_, ?_, ?_⟩
  · intro rates line hlen
    rw [processLine]
    by_cases h0 : line = ""
    · rw [if_pos h0]
    · rw [if_neg h0, if_pos hlen]
  · intro rates line hcode
    rw [processLine]
    by_cases h0 : line = ""
    · rw [if_pos h0]
    · rw [if_neg h0]
      by_cases hlen : (jsSplit line '|').length < 5
      · rw [if_pos hlen]
      · rw [if_neg hlen, if_pos hcode]
  · intro rates line hpi
    rw [processLine]
    by_cases h0 : line = ""
    · rw [if_pos h0]
    · rw [if_neg h0]
      by_cases hlen : (jsSplit line '|').length < 5
      · rw [if_pos hlen]
      · rw [if_neg hlen]
        by_cases hcode : ¬ (jsTrim ((jsSplit line '|').getD 3 "") = "EUR"
            ∨ jsTrim ((jsSplit line '|').getD 3 "") = "USD"
            ∨ jsTrim ((jsSplit line '|').getD 3 "") = "PLN")
        · rw [if_pos hcode]
        · rw [if_neg hcode, hpi]
  · intro rates line hpf
    rw [processLine]
    by_cases h0 : line = ""
    · rw [if_pos h0]
    · rw [if_neg h0]
      by_cases hlen : (jsSplit line '|').length < 5
      · rw [if_pos hlen]
      · rw [if_neg hlen]
        by_cases hcode : ¬ (jsTrim ((jsSplit line '|').getD 3 "") = "EUR"
            ∨ jsTrim ((jsSplit line '|').getD 3 "") = "USD"
            ∨ jsTrim ((jsSplit line '|').getD 3 "") = "PLN")
        · rw [if_pos hcode]
        · rw [if_neg hcode, hpf]
          cases hpi : parseIntJs (jsTrim ((jsSplit line '|').getD 2 "")) <;> rfl
  · intro rates line hpi
    rw [processLine]
    by_cases h0 : line = ""
    · rw [if_pos h0]
    · rw [if_neg h0]
      by_cases hlen : (jsSplit line '|').length < 5
      · rw [if_pos hlen]
      · rw [if_neg hlen]
        by_cases hcode : ¬ (jsTrim ((jsSplit line '|').getD 3 "") = "EUR"
            ∨ jsTrim ((jsSplit line '|').getD 3 "") = "USD"
            ∨ jsTrim ((jsSplit line '|').getD 3 "") = "PLN")
        · rw [if_pos hcode]
        · rw [if_neg hcode, hpi]
          cases hpf : parseFloatJs (jsReplaceCommaDot (jsTrim ((jsSplit line '|').getD 4 ""))) with
          | none => rfl
          | some rate =>
            show (if (0 : ℤ) = 0 then rates
              else rates.setRate (jsTrim ((jsSplit line '|').getD 3 ""))
                (rate / ((0 : ℤ) : ℚ))) = rates
            rw [if_pos rfl]
  · intro rates line amount rate h0 hlen hcode hpi hpf hne
    rw [processLine, if_neg h0, if_neg hlen, if_neg (not_not_intro hcode), hpi, hpf]
    show (if amount = 0 then rates
      else rates.setRate (jsTrim ((jsSplit line '|').getD 3 "")) (rate / (amount : ℚ)))
        = rates.setRate (jsTrim ((jsSplit line '|').getD 3 "")) (rate / (amount : ℚ))
    rw [if_neg hne]
  · intro rates v
    refine ⟨?_, ?_, ?_, ?_, ?_, ?_, ?_, ?_, ?_⟩ <;>
      simp +decide [CnbRates.setRate]
  · simp +decide [parseRatesText, processLine, jsSplit, jsTrim, splitOnChar, parseIntJs,
      parseFloatJs, splitSign, takeDigitsAux, jsReplaceCommaDot, replaceFirstChar,
      CnbRates.setRate]
    norm_num

/-- Witness for C7: a short line and an unsupported-currency line are
skipped; the `EMU|euro|1|EUR|24,725` row is stored as EUR ↦ 24.725 / 1. -/
theorem claim7_parse_rates_text_witness :
    processLine ⟨none, none, none⟩ "short line" = ⟨none, none, none⟩
    ∧ processLine ⟨some 1, none, none⟩ "GBR|libra|1|GBP|29,055" = ⟨some 1, none, none⟩
    ∧ processLine ⟨none, none, none⟩ "EMU|euro|1|EUR|24,725"
        = CnbRates.setRate ⟨none, none, none⟩ "EUR" ((24725/1000) / ((1 : ℤ) : ℚ)) := by
  have h := claim7_parse_rates_text
  refine ⟨h.2.1 ⟨none, none, none⟩ "short line" (by decide),
    h.2.2.1 ⟨some 1, none, none⟩ "GBR|libra|1|GBP|29,055" (by decide), ?_⟩
  have hg := h.2.2.2.2.2.2.1 ⟨none, none, none⟩ "EMU|euro|1|EUR|24,725" 1 (24725/1000)
    (by decide) (by decide) (by decide) (by decide)
    (by simp +decide [parseFloatJs, splitSign, takeDigitsAux, jsReplaceCommaDot,
      replaceFirstChar, jsSplit, jsTrim, splitOnChar]; norm_num)
    (by decide)
  have hcode : jsTrim ((jsSplit "EMU|euro|1|EUR|24,725" '|').getD 3 "") = "EUR" := by decide
  rw [hg, hcode]

/-- C3: inside `prisma.$transaction`, order insertion and stock decrement
are atomic: a successful run exhibits both effects — the new order row
appended and the product quantity decremented by exactly the ordered
amount — while any failing run (product missing, insufficient stock, or a
storage fault at either write step) leaves the database exactly as it was:
no partial state is ever observable. -/
theorem claim3_atomic_persistence (fault : StorageFault) (db : Db) (input : CreateOrderInput) :
    (∀ (db2 : Db) (e : OrdersError),
      runCreate fault db input = (db2, .error e) → db2 = db)
    ∧ (∀ (db2 : Db) (order : OrderRow),
      runCreate fault db input = (db2, .ok order) →
        db2.orders = db.orders ++ [order]
        ∧ productQuantity db2 input.productId
            = (productQuantity db input.productId).map (fun q => q - input.quantity)) := by
  constructor
  · intro db2 e h
    unfold runCreate at h
    split at h
    · injection h with h1 h2
      exact Except.noConfusion h2
    · injection h with h1 h2
      exact h1.symm
  · intro db2 order h
    unfold runCreate at h
    split at h
    case _ db3 ord heq =>
      injection h with h1 h2
      injection h2 with h3
      have hshape := createTxBody_ok_shape fault db input db3 ord heq
      constructor
      · rw [← h1, hshape, ← h3]
        rfl
      · rw [← h1, hshape, productQuantity_decrement]
        rfl
    · injection h with h1 h2
      exact Except.noConfusion h2

/-- Witness for C3: on the sample database, the fault-free run appends the
order and decrements stock by the ordered amount, and a run whose update
step fails leaves the database unchanged. -/
theorem claim3_atomic_persistence_witness :
    (runCreate .ok sampleDb ⟨1, 3, sampleCustomer⟩).1.orders
        = sampleDb.orders ++ [mkOrderRow sampleDb ⟨1, 3, sampleCustomer⟩ sampleProduct]
    ∧ productQuantity (runCreate .ok sampleDb ⟨1, 3, sampleCustomer⟩).1 1
        = (productQuantity sampleDb 1).map (fun q => q - 3)
    ∧ (runCreate .updateFails sampleDb ⟨1, 3, sampleCustomer⟩).1 = sampleDb := by
  have hok : runCreate .ok sampleDb ⟨1, 3, sampleCustomer⟩
      = (decrementProduct
          { sampleDb with
            orders := sampleDb.orders
              ++ [mkOrderRow sampleDb ⟨1, 3, sampleCustomer⟩ sampleProduct] } 1 3,
         .ok (mkOrderRow sampleDb ⟨1, 3, sampleCustomer⟩ sampleProduct)) := by
    unfold runCreate
    rw [createTxBody_ok_success sampleDb ⟨1, 3, sampleCustomer⟩ sampleProduct rfl (by decide)]
  have h2 := (claim3_atomic_persistence .ok sampleDb ⟨1, 3, sampleCustomer⟩).2
      (runCreate .ok sampleDb ⟨1, 3, sampleCustomer⟩).1
      (mkOrderRow sampleDb ⟨1, 3, sampleCustomer⟩ sampleProduct)
      (by rw [hok])
  have hfail : runCreate .updateFails sampleDb ⟨1, 3, sampleCustomer⟩
      = (sampleDb, .error .storage) := by
    unfold runCreate
    rw [createTxBody_updateFails sampleDb ⟨1, 3, sampleCustomer⟩ sampleProduct rfl (by decide)]
  have h1 := (claim3_atomic_persistence .updateFails sampleDb ⟨1, 3, sampleCustomer⟩).1
      (runCreate .updateFails sampleDb ⟨1, 3, sampleCustomer⟩).1 .storage (by rw [hfail])
  exact ⟨h2.1, h2.2, h1⟩

/-- C4: `ordersService.create` checks its preconditions in order: a missing
product yields the NotFound error with nothing written; an existing product
with insufficient stock yields specifically the Conflict error with nothing
written; only when both checks pass do pricing (via
`calculateVatBreakdown`) and the atomic persistence proceed. -/
theorem claim4_precondition_order (db : Db) (input : CreateOrderInput) :
    (findUniqueProduct db input.productId = none →
      runCreate .ok db input = (db, .error (.notFound "Product" input.productId)))
    ∧ (∀ product : Product, findUniqueProduct db input.productId = some product →
        product.quantity < input.quantity →
        runCreate .ok db input
          = (db, .error (.conflict (insufficientStockMessage product.quantity input.quantity))))
    ∧ (∀ product : Product, findUniqueProduct db input.productId = some product →
        ¬ product.quantity < input.quantity →
        runCreate .ok db input
          = (decrementProduct { db with orders := db.orders ++ [mkOrderRow db input product] }
               input.productId input.quantity,
             .ok (mkOrderRow db input product))
        ∧ (mkOrderRow db input product).subtotalCzk
            = (calculateVatBreakdown ⟨.fin product.priceCzk, .fin (input.quantity : ℚ),
                some DEFAULT_VAT_RATE⟩).subtotalCzk
        ∧ (mkOrderRow db input product).vatAmountCzk
            = (calculateVatBreakdown ⟨.fin product.priceCzk, .fin (input.quantity : ℚ),
                some DEFAULT_VAT_RATE⟩).vatAmountCzk
        ∧ (mkOrderRow db input product).totalPriceCzk
            = (calculateVatBreakdown ⟨.fin product.priceCzk, .fin (input.quantity : ℚ),
                some DEFAULT_VAT_RATE⟩).totalCzk) := by
  refine ⟨?_, ?_, ?_⟩
  · intro h
    rw [runCreate, createTxBody_none .ok db input h]
  · intro product hp hlt
    rw [runCreate, createTxBody_conflict .ok db input product hp hlt]
  · intro product hp hge
    exact ⟨by rw [runCreate, createTxBody_ok_success db input product hp hge], rfl, rfl, rfl⟩

/-- Witness for C4 on the sample database: unknown product id 2 gives
NotFound, requesting 9 of 5 gives Conflict, requesting 3 of 5 succeeds. -/
theorem claim4_precondition_order_witness :
    runCreate .ok sampleDb ⟨2, 3, sampleCustomer⟩
      = (sampleDb, .error (.notFound "Product" 2))
    ∧ runCreate .ok sampleDb ⟨1, 9, sampleCustomer⟩
      = (sampleDb, .error (.conflict (insufficientStockMessage 5 9)))
    ∧ runCreate .ok sampleDb ⟨1, 3, sampleCustomer⟩
      = (decrementProduct
           { sampleDb with
             orders := sampleDb.orders ++ [mkOrderRow sampleDb ⟨1, 3, sampleCustomer⟩ sampleProduct] }
           1 3,
         .ok (mkOrderRow sampleDb ⟨1, 3, sampleCustomer⟩ sampleProduct)) := by
  refine ⟨?_, ?_, ?_⟩
  · exact (claim4_precondition_order sampleDb ⟨2, 3, sampleCustomer⟩).1 (by decide)
  · exact (claim4_precondition_order sampleDb ⟨1, 9, sampleCustomer⟩).2.1 sampleProduct
      (by decide) (by decide)
  · exact ((claim4_precondition_order sampleDb ⟨1, 3, sampleCustomer⟩).2.2 sampleProduct
      (by decide) (by decide)).1

/-- Witness for C9 at unit price 1000, quantity 1, rate 0.21. -/
theorem claim9_vat_algebra_witness :
    (calculateVatBreakdown ⟨.fin 1000, .fin 1, some (21/100)⟩).subtotalCzk
        + (calculateVatBreakdown ⟨.fin 1000, .fin 1, some (21/100)⟩).vatAmountCzk
      = (calculateVatBreakdown ⟨.fin 1000, .fin 1, some (21/100)⟩).totalCzk
    ∧ |(calculateVatBreakdown ⟨.fin 1000, .fin 1, some (21/100)⟩).totalCzk
        - calculatePriceBeforeVat
            (.fin (calculateVatBreakdown ⟨.fin 1000, .fin 1, some (21/100)⟩).totalCzk) (21/100)
            * (1 + 21/100)|
      ≤ 1/100 :=
  claim9_vat_algebra 1000 1 (21/100) (by norm_num) (by norm_num) (by norm_num) (by norm_num)

end FapiOrder
